import Mathlib

/-!
Shallow embedding of the two linting scripts of the `reach` repository:
`scripts/validate_metadata.py` and `scripts/validate_style_guide.py`.

Files are modelled by their path string together with the outcome of
reading them (`ReadResult`): either the decoded text content, or the
message of a `UnicodeDecodeError` / `IOError`.  Directory trees are
modelled by the data each script actually consults: a list of files for
the traversal loops, and for the package-structure check a list of
directory entries each carrying the names that exist directly inside it.
String helpers (`splitlines`, `strip`, substring containment, path name
and suffix extraction) mirror the Python semantics used by the scripts.
-/

namespace Reach

/-- Characters at which Python `str.splitlines` breaks lines
(besides the two-character sequence CR LF, handled separately). -/
def isLineBreak (c : Char) : Bool :=
  c == '\n' || c == '\r' || c == '\x0b' || c == '\x0c' ||
  c == '\x1c' || c == '\x1d' || c == '\x1e' || c == '\x85' ||
  c == '\u2028' || c == '\u2029'

/-- Characters stripped by Python `str.strip()` (i.e. `str.isspace()`). -/
def isPySpace (c : Char) : Bool :=
  c == ' ' || c == '\t' || c == '\n' || c == '\r' || c == '\x0b' || c == '\x0c' ||
  c == '\x1c' || c == '\x1d' || c == '\x1e' || c == '\x1f' || c == '\x85' ||
  c == '\xa0' || c == '\u1680' || ('\u2000' ≤ c && c ≤ '\u200a') ||
  c == '\u2028' || c == '\u2029' || c == '\u202f' || c == '\u205f' || c == '\u3000'

/-- Worker for `splitlines`: `acc` is the current line, reversed. -/
def splitlinesAux : List Char → List Char → List String
  | [], acc => if acc.isEmpty then [] else [acc.reverse.asString]
  | '\r' :: '\n' :: rest, acc => acc.reverse.asString :: splitlinesAux rest []
  | c :: rest, acc =>
    if isLineBreak c then acc.reverse.asString :: splitlinesAux rest []
    else splitlinesAux rest (c :: acc)

/-- Python `content.splitlines()`: split at line boundaries, no trailing
empty line for a trailing newline, `[]` on the empty string. -/
def splitlines (s : String) : List String :=
  splitlinesAux s.data []

/-- Python `str.strip()`: remove whitespace from both ends. -/
def pyStrip (s : String) : String :=
  (((s.data.dropWhile isPySpace).reverse.dropWhile isPySpace).reverse).asString

/-- Does `pat` occur at the start of `s`? (chars) -/
def leadMatch : List Char → List Char → Bool
  | [], _ => true
  | _ :: _, [] => false
  | a :: pa, b :: sb => a == b && leadMatch pa sb

/-- Does `pat` occur somewhere in `s`? (chars) -/
def subMatch (pat : List Char) : List Char → Bool
  | [] => leadMatch pat []
  | s@(_ :: rest) => leadMatch pat s || subMatch pat rest

/-- Python `pat in s` substring containment. -/
def containsSub (pat s : String) : Bool :=
  subMatch pat.data s.data

/-- Python `s.startswith(pat)`. -/
def strStartsWith (s pat : String) : Bool :=
  leadMatch pat.data s.data

/-- Python `s.endswith(pat)`. -/
def strEndsWith (s pat : String) : Bool :=
  leadMatch pat.data.reverse s.data.reverse

/-- Final path component, as in `pathlib.PurePath.name`: everything after
the last `/`. -/
def pathNameAux : List Char → List Char → List Char
  | [], acc => acc.reverse
  | '/' :: rest, _ => pathNameAux rest []
  | c :: rest, acc => pathNameAux rest (c :: acc)

/-- `file_path.name` of `pathlib`. -/
def pathName (p : String) : String :=
  (pathNameAux p.data []).asString

/-- Index of the last `.` in a character list (`str.rfind`), counting from
`k` for the head. -/
def lastDotIdx : List Char → Nat → Option Nat
  | [], _ => none
  | c :: rest, k =>
    match lastDotIdx rest (k + 1) with
    | some j => some j
    | none => if c == '.' then some k else none

/-- `file_path.suffix` of `pathlib`: `name[i:]` for `i = name.rfind('.')`
when `0 < i < len(name) - 1`, else the empty string. -/
def pathSuffix (p : String) : String :=
  let n := pathName p
  match lastDotIdx n.data 0 with
  | some i => if 0 < i && i < n.data.length - 1 then (n.data.drop i).asString else ""
  | none => ""

/-- Outcome of `file_path.read_text(encoding="utf-8")`: the decoded
content, or the message of the `UnicodeDecodeError` / `IOError` raised. -/
inductive ReadResult where
  | ok (content : String)
  | err (msg : String)
deriving DecidableEq

/-- `validate_markdown_file` of `scripts/validate_metadata.py`. -/
def validate_markdown_file (file_path : String) (r : ReadResult) : List String :=
  match r with
  | .err e => [file_path ++ ": Error reading file - " ++ e]
  | .ok content =>
    let lines := splitlines content
    if lines.isEmpty then []
    else
      match lines.find? (fun line => pyStrip line != "") with
      | none => []
      | some first_non_empty =>
        if first_non_empty != "" && !(strStartsWith first_non_empty "# ") then
          [file_path ++ ": Missing h1 title at start of file"]
        else []

/-- The `"@module" in line or "@module:" in line` test of
`validate_typescript_file`. -/
def moduleTagIn (line : String) : Bool :=
  containsSub "@module" line || containsSub "@module:" line

/-- The test/spec/config name patterns skipped by
`validate_typescript_file`. -/
def skipPatterns : List String :=
  [".test.", ".spec.", ".config.", "vitest.config"]

/-- The error message emitted by `validate_typescript_file` for a missing
tag. -/
def missingModuleMsg (file_path : String) : String :=
  file_path ++ ": Missing @module metadata tag. " ++
    "Add a comment like: // @module: package-name"

/-- `validate_typescript_file` of `scripts/validate_style_guide.py`. -/
def validate_typescript_file (file_path : String) (r : ReadResult) : List String :=
  match r with
  | .err e => [file_path ++ ": Error reading file - " ++ e]
  | .ok content =>
    let lines := splitlines content
    if lines.isEmpty || pyStrip content == "" then []
    else if skipPatterns.any (fun pat => containsSub pat (pathName file_path)) then []
    else
      let has_module_tag := (lines.take 20).any moduleTagIn
      if pathSuffix file_path == ".ts" && !(strEndsWith (pathName file_path) ".d.ts") then
        if lines.length > 10 && !has_module_tag then [missingModuleMsg file_path]
        else []
      else []

/-- An entry yielded by `packages_dir.iterdir()`: its final name, whether
it is a directory, and the names that exist directly inside it (what the
`(package_dir / x).exists()` calls consult). -/
structure DirEntry where
  name : String
  isDir : Bool
  children : List String
deriving DecidableEq

/-- The `packages/` directory as `validate_package_structure` sees it:
absent, or present with its `iterdir()` listing. -/
inductive PackagesRoot where
  | absent
  | present (entries : List DirEntry)
deriving DecidableEq

/-- Append the lists produced by `f` over a list, in order (the shape of
an accumulating `for` loop). -/
def concatMap (f : α → List β) : List α → List β
  | [] => []
  | a :: as => f a ++ concatMap f as

/-- The per-entry body of the loop in `validate_package_structure`. -/
def checkPackage (package_dir : DirEntry) : List String :=
  if !package_dir.isDir || strStartsWith package_dir.name "." then []
  else
    (concatMap (fun required_file =>
        if package_dir.children.contains required_file then []
        else [package_dir.name ++ ": Missing required file: " ++ required_file])
      ["package.json", "tsconfig.json"])
    ++ (if package_dir.children.contains "src" then []
        else [package_dir.name ++ ": Missing src/ directory"])

/-- `validate_package_structure` of `scripts/validate_style_guide.py`. -/
def validate_package_structure : PackagesRoot → List String
  | .absent => []
  | .present entries => concatMap checkPackage entries

/-- A markdown file met by the `docs_dir.rglob("*.md")` loop of
`validate_metadata.main`. -/
structure MdFile where
  path : String
  read : ReadResult
deriving DecidableEq

/-- The `docs/` directory as `validate_metadata.main` sees it. -/
inductive DocsDir where
  | absent
  | present (files : List MdFile)
deriving DecidableEq

/-- `main` of `scripts/validate_metadata.py`: the collected error list and
the process exit code. -/
def metadata_run : DocsDir → List String × Nat
  | .absent => ([], 0)
  | .present files =>
    let kept := files.filter (fun f =>
      !(strStartsWith (pathName f.path) "." || strStartsWith (pathName f.path) "._"))
    let all_errors := concatMap (fun f => validate_markdown_file f.path f.read) kept
    (all_errors, if all_errors.isEmpty then 0 else 1)

/-- A TypeScript file met by the `packages_dir.rglob` loops of
`validate_style_guide.main` (`*.ts` and `*.tsx`). -/
structure TsFile where
  path : String
  read : ReadResult
deriving DecidableEq

/-- The `packages/` directory as `validate_style_guide.main` sees it:
absent, or present with its `iterdir()` entries and its recursively
enumerated `*.ts` / `*.tsx` files. -/
inductive PackagesDir where
  | absent
  | present (entries : List DirEntry) (tsFiles : List TsFile)
deriving DecidableEq

/-- The exclusion test of `validate_style_guide.main`:
`"node_modules" not in str(f) and "dist" not in str(f)` (negated). -/
def tsFileExcluded (p : String) : Bool :=
  containsSub "node_modules" p || containsSub "dist" p

/-- `main` of `scripts/validate_style_guide.py`: the collected error list
and the process exit code. -/
def style_run : PackagesDir → List String × Nat
  | .absent =>
    let all_errors := validate_package_structure .absent
    (all_errors, if all_errors.isEmpty then 0 else 1)
  | .present entries tsFiles =>
    let structure_errors := validate_package_structure (.present entries)
    let kept := tsFiles.filter (fun f => !tsFileExcluded f.path)
    let all_errors :=
      structure_errors ++ concatMap (fun f => validate_typescript_file f.path f.read) kept
    (all_errors, if all_errors.isEmpty then 0 else 1)

/-- Modelled from the spec's words for claim C3 only: exclusion decided by
a directory segment of the path being literally named `node_modules` or
`dist` (the path split at `/`).  To be compared with `tsFileExcluded`,
which is what the code does. -/
def segmentSplit : List Char → List Char → List String
  | [], acc => [acc.reverse.asString]
  | '/' :: rest, acc => acc.reverse.asString :: segmentSplit rest []
  | c :: rest, acc => segmentSplit rest (c :: acc)

/-- Modelled from the spec's words for claim C3 only: see `segmentSplit`. -/
def segmentExcluded (p : String) : Bool :=
  (segmentSplit p.data []).any (fun seg => seg == "node_modules" || seg == "dist")

/-- C1, counterexample: the claim also covers enumerated `.tsx` files, but
the code only ever emits the missing-tag error when `file_path.suffix ==
".ts"`.  Here a `.tsx` file with 11 lines, no `@module` in its first 20
lines, no skip pattern in its name and not a `.d.ts` file gets zero
errors where the claim demands exactly one. -/
theorem C1_counterexample :
    pathSuffix "packages/app/Widget.tsx" = ".tsx" ∧
    skipPatterns.any
      (fun pat => containsSub pat (pathName "packages/app/Widget.tsx")) = false ∧
    strEndsWith (pathName "packages/app/Widget.tsx") ".d.ts" = false ∧
    (splitlines "a\nb\nc\nd\ne\nf\ng\nh\ni\nj\nk").length > 10 ∧
    ((splitlines "a\nb\nc\nd\ne\nf\ng\nh\ni\nj\nk").take 20).all
      (fun l => !moduleTagIn l) = true ∧
    validate_typescript_file "packages/app/Widget.tsx"
      (ReadResult.ok "a\nb\nc\nd\ne\nf\ng\nh\ni\nj\nk") = [] := by
  decide

/-- C1 as amended: restricted to files whose pathlib suffix is `".ts"`
(the code never flags `.tsx` files) and whose content is not entirely
whitespace (those are skipped before counting lines).  For such a file,
not test/spec/config-named and not `.d.ts`, with more than 10 lines:
if no line among the first 20 contains the `@module` marker, exactly one
error is produced; if any line among the first 20 (in particular line 20,
index 19) contains the marker, the error is suppressed.  A marker only on
line 21 (index 20) is outside the scanned `lines[:20]`, so the first
conjunct still applies and the error stays. -/
theorem C1_amendment (p content : String)
    (hsuf : pathSuffix p = ".ts")
    (hdts : strEndsWith (pathName p) ".d.ts" = false)
    (hpat : skipPatterns.any (fun pat => containsSub pat (pathName p)) = false)
    (hws : pyStrip content ≠ "")
    (hlen : (splitlines content).length > 10) :
    (((splitlines content).take 20).any moduleTagIn = false →
      validate_typescript_file p (ReadResult.ok content) = [missingModuleMsg p]) ∧
    (∀ i l, i < 20 → (splitlines content).get? i = some l → moduleTagIn l = true →
      validate_typescript_file p (ReadResult.ok content) = []) := by
  have hne : (splitlines content).isEmpty = false := by
    cases hsp : splitlines content with
    | nil => rw [hsp] at hlen; simp at hlen
    | cons a t => rfl
  have hws' : (pyStrip content == "") = false := by
    simpa using hws
  have hsufb : (pathSuffix p == ".ts") = true := by
    simp [hsuf]
  have hlend : decide ((splitlines content).length > 10) = true :=
    decide_eq_true hlen
  constructor
  · intro htag
    simp [validate_typescript_file, hne, hws', hpat, hsufb, hdts, htag, hlend]
  · intro i l hi hget htag
    have hmem : l ∈ (splitlines content).take 20 := by
      have ht : ((splitlines content).take 20).get? i = some l := by
        rw [List.get?_take hi]
        exact hget
      exact List.get?_mem ht
    have hany : ((splitlines content).take 20).any moduleTagIn = true :=
      List.any_eq_true.mpr ⟨l, hmem, htag⟩
    simp [validate_typescript_file, hne, hws', hpat, hsufb, hdts, hany, hlend]

/-- Witness for C1 as amended: a concrete 11-line `.ts` file with no
marker in its first 20 lines gets exactly the one missing-tag error. -/
theorem C1_witness :
    validate_typescript_file "packages/app/util.ts"
      (ReadResult.ok "a\nb\nc\nd\ne\nf\ng\nh\ni\nj\nk") =
      [missingModuleMsg "packages/app/util.ts"] := by
  have h := C1_amendment "packages/app/util.ts" "a\nb\nc\nd\ne\nf\ng\nh\ni\nj\nk"
    (by decide) (by decide) (by decide) (by decide) (by decide)
  exact h.1 (by decide)

/-- C2, counterexample: a file whose content is non-empty but entirely
whitespace has no first non-empty line, so it falls in the claim's
"otherwise" bucket (demanding exactly one error), yet the code emits
none. -/
theorem C2_counterexample :
    ("   " : String) ≠ "" ∧
    (splitlines "   ").find? (fun line => pyStrip line != "") = none ∧
    validate_markdown_file "docs/guide.md" (ReadResult.ok "   ") = [] := by
  decide

/-- C2 as amended: for content that has a first line with non-whitespace
content, zero errors when that line starts with `"# "` and exactly one
error naming the file otherwise; content with no such line (empty or
all-whitespace) yields zero errors. -/
theorem C2_amendment (p content : String) :
    (∀ l, (splitlines content).find? (fun line => pyStrip line != "") = some l →
      validate_markdown_file p (ReadResult.ok content) =
        if strStartsWith l "# " then []
        else [p ++ ": Missing h1 title at start of file"]) ∧
    ((splitlines content).find? (fun line => pyStrip line != "") = none →
      validate_markdown_file p (ReadResult.ok content) = []) := by
  constructor
  · intro l hfind
    have hne : (splitlines content).isEmpty = false := by
      cases hsp : splitlines content with
      | nil => rw [hsp] at hfind; simp at hfind
      | cons a t => rfl
    have hstrip : (pyStrip l != "") = true := by
      simpa using List.find?_some hfind
    have hl : (l != "") = true := by
      cases hl0 : (l == "") with
      | true =>
        have : l = "" := by simpa using hl0
        rw [this] at hstrip
        exact absurd hstrip (by decide)
      | false => simp [bne, hl0]
    cases hs : strStartsWith l "# " with
    | true => simp [validate_markdown_file, hne, hfind, hl, hs]
    | false => simp [validate_markdown_file, hne, hfind, hl, hs]
  · intro hfind
    cases hsp : splitlines content with
    | nil => simp [validate_markdown_file, hsp]
    | cons a t =>
      rw [hsp] at hfind
      simp [validate_markdown_file, hsp, hfind]

/-- Witness for C2 as amended: a concrete body-only file gets exactly the
one heading error. -/
theorem C2_witness :
    validate_markdown_file "docs/a.md" (ReadResult.ok "body text") =
      ["docs/a.md: Missing h1 title at start of file"] := by
  have h := (C2_amendment "docs/a.md" "body text").1 "body text" (by decide)
  exact h.trans (by decide)

/-- C3, counterexample: the style validator's main pass excludes by plain
substring over the whole path string, not by directory segment names.
The path `packages/distill/index.ts` has no segment named `dist` or
`node_modules`, yet it is excluded: its (flaggable) file contributes no
error to the run. -/
theorem C3_counterexample :
    segmentExcluded "packages/distill/index.ts" = false ∧
    tsFileExcluded "packages/distill/index.ts" = true ∧
    validate_typescript_file "packages/distill/index.ts"
      (ReadResult.ok "a\nb\nc\nd\ne\nf\ng\nh\ni\nj\nk") ≠ [] ∧
    (style_run (PackagesDir.present []
      [⟨"packages/distill/index.ts",
        ReadResult.ok "a\nb\nc\nd\ne\nf\ng\nh\ni\nj\nk"⟩])).1 = [] := by
  decide

/-- C3 as amended: an enumerated `.ts`/`.tsx` file is excluded from
checking exactly when its path string contains `"node_modules"` or
`"dist"` as a substring anywhere — not only as a directory segment name.
Stated on a single-file run: the run's errors are empty under exclusion
and exactly the file's own validation errors otherwise. -/
theorem C3_amendment (f : TsFile) :
    (style_run (PackagesDir.present [] [f])).1 =
      if tsFileExcluded f.path then []
      else validate_typescript_file f.path f.read := by
  cases hb : tsFileExcluded f.path with
  | true => simp [style_run, validate_package_structure, concatMap, List.filter, hb]
  | false => simp [style_run, validate_package_structure, concatMap, List.filter, hb]

/-- C4: for every empty file, each per-file check (`validate_markdown_file`
for the heading check, `validate_typescript_file` for the metadata check)
produces zero errors. -/
theorem C4_empty_files (pmd pts : String) :
    validate_markdown_file pmd (ReadResult.ok "") = [] ∧
    validate_typescript_file pts (ReadResult.ok "") = [] :=
  ⟨rfl, rfl⟩

/-- C5: for every source file whose name matches a test/spec/config
pattern (contains ".test.", ".spec.", ".config.", or "vitest.config"),
`validate_typescript_file` returns zero errors regardless of content. -/
theorem C5_pattern_files_skipped (p content : String)
    (h : skipPatterns.any (fun pat => containsSub pat (pathName p)) = true) :
    validate_typescript_file p (ReadResult.ok content) = [] := by
  simp [validate_typescript_file, h]

/-- Witness for C5 on a concrete `.test.` file with a flaggable body. -/
theorem C5_witness :
    validate_typescript_file "pkg/a.test.ts" (ReadResult.ok "x") = [] :=
  C5_pattern_files_skipped "pkg/a.test.ts" "x" (by decide)

/-- C6: for every readable source file whose line count is at most 10,
`validate_typescript_file` returns zero errors regardless of content. -/
theorem C6_short_files_skipped (p content : String)
    (h : (splitlines content).length ≤ 10) :
    validate_typescript_file p (ReadResult.ok content) = [] := by
  have hd : decide ((splitlines content).length > 10) = false := by
    simp only [decide_eq_false_iff_not]
    omega
  simp [validate_typescript_file, hd]

/-- Witness for C6 on a concrete one-line `.ts` file with no tag. -/
theorem C6_witness :
    validate_typescript_file "a/b.ts" (ReadResult.ok "hello") = [] :=
  C6_short_files_skipped "a/b.ts" "hello" (by decide)

/-- C7: for a packages root whose entries are N non-hidden directories
each missing `package.json`, `tsconfig.json` and `src/`,
`validate_package_structure` produces exactly 3×N errors, three per
package. -/
theorem C7_all_missing_count (es : List DirEntry)
    (h : ∀ e ∈ es, e.isDir = true ∧ strStartsWith e.name "." = false ∧
      e.children.contains "package.json" = false ∧
      e.children.contains "tsconfig.json" = false ∧
      e.children.contains "src" = false) :
    (validate_package_structure (PackagesRoot.present es)).length = 3 * es.length := by
  induction es with
  | nil => rfl
  | cons e es ih =>
    obtain ⟨h1, h2, h3, h4, h5⟩ := h e (List.mem_cons_self e es)
    have hrest := fun x hx => h x (List.mem_cons_of_mem e hx)
    have h3' : "package.json" ∉ e.children := by simpa using h3
    have h4' : "tsconfig.json" ∉ e.children := by simpa using h4
    have h5' : "src" ∉ e.children := by simpa using h5
    have hce : (checkPackage e).length = 3 := by
      simp [checkPackage, concatMap, h1, h2, h3', h4', h5']
    simp only [validate_package_structure, concatMap, List.length_append,
      List.length_cons] at *
    rw [hce, ih hrest]
    omega

/-- Witness for C7 on a concrete root with two bare packages. -/
theorem C7_witness :
    (validate_package_structure (PackagesRoot.present
      [⟨"alpha", true, []⟩, ⟨"beta", true, ["README.md"]⟩])).length = 3 * 2 :=
  C7_all_missing_count
    [⟨"alpha", true, []⟩, ⟨"beta", true, ["README.md"]⟩] (by decide)

/-- C8: when the designated root directory is absent (`docs/` for the doc
validator, `packages/` for the style validator), the run collects zero
validation errors and exits with status 0; the absence is never itself a
validation error. -/
theorem C8_missing_root_clean :
    metadata_run DocsDir.absent = ([], 0) ∧
    style_run PackagesDir.absent = ([], 0) :=
  ⟨rfl, rfl⟩

/-- C9: a file whose read fails yields exactly one read-error whose
message carries the underlying failure description, for both validators;
both runs always terminate with an exit code that reflects only the
collected error list (0 iff empty, else 1) — in this total embedding no
exception escapes a validator. -/
theorem C9_read_errors_recovered :
    (∀ p e, validate_markdown_file p (ReadResult.err e) =
      [p ++ ": Error reading file - " ++ e]) ∧
    (∀ p e, validate_typescript_file p (ReadResult.err e) =
      [p ++ ": Error reading file - " ++ e]) ∧
    (∀ d, (metadata_run d).2 = if (metadata_run d).1.isEmpty then 0 else 1) ∧
    (∀ r, (style_run r).2 = if (style_run r).1.isEmpty then 0 else 1) := by
  refine ⟨fun p e => rfl, fun p e => rfl, fun d => ?_, fun r => ?_⟩
  · cases d <;> rfl
  · cases r <;> rfl

/-- C10: for every input file (any path, readable or not), each per-file
validator returns a list of length at most one. -/
theorem C10_at_most_one (p : String) (r : ReadResult) :
    (validate_markdown_file p r).length ≤ 1 ∧
    (validate_typescript_file p r).length ≤ 1 := by
  constructor
  · cases r with
    | err e => simp [validate_markdown_file]
    | ok c =>
      simp only [validate_markdown_file]
      split
      · simp
      · split
        · simp
        · split <;> simp
  · cases r with
    | err e => simp [validate_typescript_file]
    | ok c =>
      simp only [validate_typescript_file]
      split
      · simp
      · split
        · simp
        · split
          · split <;> simp
          · simp

end Reach
